import Mathlib

/-!
Shallow embedding of the aggregation-and-reporting core of
`glass.py` (glass-dashboard): schema normalization (lines 37-42),
the four groupby aggregations (lines 53-87), the top-N type filter
(line 74), the reason filters (lines 140 and 146), the new-entry
shaping (lines 154-184) and the Excel export block (lines 94-123).
-/

/-- Calendar date, proleptic Gregorian. -/
structure Date where
  year : Nat
  month : Nat
  day : Nat
deriving DecidableEq, Repr

/-- Gregorian leap-year test. -/
def isLeap (y : Nat) : Bool :=
  (y % 4 == 0 && y % 100 != 0) || y % 400 == 0

/-- Number of days in a month of a given year. -/
def daysInMonth (y m : Nat) : Nat :=
  if m = 2 then (if isLeap y then 29 else 28)
  else if m = 4 ∨ m = 6 ∨ m = 9 ∨ m = 11 then 30
  else 31

/-- Ordinal day of the year (1-based). -/
def dayOfYear (d : Date) : Nat :=
  (List.range (d.month - 1)).foldl (fun acc i => acc + daysInMonth d.year (i + 1)) 0 + d.day

/-- Day of the week, 0 = Sunday, by Sakamoto's method. -/
def dayOfWeek (d : Date) : Nat :=
  let t : List Nat := [0, 3, 2, 5, 0, 3, 5, 1, 4, 6, 2, 4]
  let y : Nat := if d.month < 3 then d.year - 1 else d.year
  (y + y / 4 + y / 400 + t.getD (d.month - 1) 0 + d.day - y / 100) % 7

/-- ISO weekday, Monday = 1 .. Sunday = 7. -/
def isoWeekday (d : Date) : Nat :=
  let w := dayOfWeek d
  if w = 0 then 7 else w

/-- Helper congruence for the 52/53-week rule of the ISO calendar. -/
def isoP (y : Nat) : Nat :=
  (y + y / 4 + y / 400 - y / 100) % 7

/-- Number of ISO weeks in a year (52 or 53). -/
def weeksInYear (y : Nat) : Nat :=
  if isoP y = 4 ∨ isoP (y - 1) = 3 then 53 else 52

/-- ISO 8601 week number of a date (1-53), the shared derivation rule behind
both `Series.dt.isocalendar().week` (line 40) and `date.isocalendar().week`
(line 168). -/
def isoWeek (d : Date) : Nat :=
  let ord := dayOfYear d
  let wd := isoWeekday d
  let w := (ord + 10 - wd) / 7
  if w = 0 then weeksInYear (d.year - 1)
  else if w = 53 ∧ weeksInYear d.year = 52 then 1
  else w

/-- Quarter label of a date as pandas renders a quarterly Period,
e.g. "2024Q1" (`dt.to_period("Q").astype(str)`, line 39). -/
def quarterStr (d : Date) : String :=
  toString d.year ++ "Q" ++ toString ((d.month + 2) / 3)

/-- Cell value of the loosely-typed table: a text cell, a parsed datetime
cell, a numeric cell, or the missing-datetime marker NaT. -/
inductive Value where
  | str : String → Value
  | date : Date → Value
  | num : Int → Value
  | NaT : Value
deriving DecidableEq, Repr

/-- Embedding of `astype(str)` on a single cell (lines 41-42): pandas
stringifies whatever the cell holds; a missing datetime prints as "NaT". -/
def asStr (v : Value) : String :=
  match v with
  | .str s => s
  | .date d => toString d.year ++ "-" ++ toString d.month ++ "-" ++ toString d.day
  | .num n => toString n
  | .NaT => "NaT"

/-- Split a character list at the dash separator. -/
def splitDash (cs : List Char) : List (List Char) :=
  match cs with
  | [] => [[]]
  | c :: rest =>
    let r := splitDash rest
    if c = '-' then [] :: r
    else
      match r with
      | [] => [[c]]
      | g :: gs => (c :: g) :: gs

/-- Parse a non-empty all-digit character list as a decimal number. -/
def digitsToNat (cs : List Char) : Option Nat :=
  match cs with
  | [] => none
  | _ =>
    cs.foldl
      (fun acc c =>
        match acc with
        | none => none
        | some n => if c.isDigit then some (n * 10 + (c.toNat - 48)) else none)
      (some 0)

/-- Embedding of `pd.to_datetime(cell, errors="coerce")` on a text cell:
an ISO "YYYY-MM-DD" string parses to a date, anything else coerces to
missing (the source persists dates with `strftime("%Y-%m-%d")`, line 173). -/
def parseDateString (s : String) : Option Date :=
  match splitDash s.data with
  | [ys, ms, ds] =>
    match digitsToNat ys, digitsToNat ms, digitsToNat ds with
    | some y, some m, some d =>
      if 1 ≤ m ∧ m ≤ 12 ∧ 1 ≤ d ∧ d ≤ daysInMonth y m then some ⟨y, m, d⟩ else none
    | _, _, _ => none
  | _ => none

/-- Embedding of `pd.to_datetime(cell, errors="coerce")` (line 37): an
already-parsed datetime passes through, NaT stays missing, text is parsed,
and a bare number does not coerce to a calendar date. -/
def parseCell (v : Value) : Option Date :=
  match v with
  | .date d => some d
  | .str s => parseDateString s
  | .num _ => none
  | .NaT => none

/-- One row of the dashboard table. `date`, `reason` and `type` keep the
loosely-typed cell they arrived with; `year`, `quarter` and `week` are the
derived columns the preprocess step overwrites. -/
structure Rec where
  date : Value
  month : String
  year : Option Nat
  quarter : String
  week : Option Nat
  reason : Value
  type : Value
  qty : Int
  size : String
  thickness : String
  vendor : String
  so : String
  dept : String
deriving DecidableEq, Repr

/-- A blank record used to build concrete rows in examples. -/
def blankRec : Rec :=
  { date := .NaT, month := "", year := none, quarter := "", week := none,
    reason := .str "", type := .str "", qty := 0,
    size := "", thickness := "", vendor := "", so := "", dept := "" }

/-- Embedding of the preprocess block, lines 37-42: coerce `Date`
(unparseable values become NaT), derive `Year`, `Quarter` ("NaT" for a
missing date, since `astype(str)` prints the missing Period marker) and
`Week#` (null for a missing date), and coerce `Reason` and `Type` to text. -/
def normalizeRec (r : Rec) : Rec :=
  match parseCell r.date with
  | some d =>
    { r with date := .date d, year := some d.year, quarter := quarterStr d,
             week := some (isoWeek d),
             reason := .str (asStr r.reason), type := .str (asStr r.type) }
  | none =>
    { r with date := .NaT, year := none, quarter := "NaT", week := none,
             reason := .str (asStr r.reason), type := .str (asStr r.type) }

/-- Row-wise normalization of the whole table (the preprocess block acts
column-wise on every row; no row is dropped). -/
def preprocess (rs : List Rec) : List Rec := rs.map normalizeRec

theorem parseCell_normalizeRec (r : Rec) :
    parseCell (normalizeRec r).date = parseCell r.date := by
  unfold normalizeRec
  cases hp : parseCell r.date with
  | some d => simp [parseCell]
  | none => simp [parseCell]

theorem normalizeRec_idem (r : Rec) :
    normalizeRec (normalizeRec r) = normalizeRec r := by
  unfold normalizeRec
  cases hp : parseCell r.date with
  | some d => simp [parseCell, asStr]
  | none => simp [parseCell, asStr]

/-- Sum of the `Qty` entries whose key matches `k` (the per-group sum of a
pandas `groupby(key)["Qty"].sum()`). -/
def sumForKey {α : Type} [DecidableEq α] (l : List (α × Int)) (k : α) : Int :=
  (l.map (fun p => if p.1 = k then p.2 else 0)).sum

/-- Embedding of `groupby(key)["Qty"].sum().reset_index()`: one output row
per distinct key, carrying the sum of `Qty` over the rows with that key. -/
def groupSum {α : Type} [DecidableEq α] (l : List (α × Int)) : List (α × Int) :=
  (l.map Prod.fst).dedup.map (fun k => (k, sumForKey l k))

/-- Embedding of the year filter `df[df["Year"] == y]` used by the weekly,
reason and type views (lines 53, 66, 75): a null year never equals a
selected year. -/
def inYear (y : Nat) (r : Rec) : Bool := r.year == some y

/-- Records of the selected year. -/
def df_year (rs : List Rec) (y : Nat) : List Rec := rs.filter (inYear y)

/-- Embedding of `weekly` (line 54): group the year's records by `Week#`
and sum `Qty`. -/
def weekly (rs : List Rec) (y : Nat) : List (Option Nat × Int) :=
  groupSum ((df_year rs y).map (fun r => (r.week, r.qty)))

/-- Embedding of `reason_data` (line 67): group the year's records by
`Reason` and sum `Qty`. -/
def reason_data (rs : List Rec) (y : Nat) : List (Value × Int) :=
  groupSum ((df_year rs y).map (fun r => (r.reason, r.qty)))

/-- Embedding of the quarter filter `df[df["Quarter"] == q]` (line 84). -/
def inQuarter (q : String) (r : Rec) : Bool := r.quarter == q

/-- Quarter labels offered by the dashboard radio (line 82). -/
def valid_quarters : List String :=
  ["2024Q1", "2024Q2", "2024Q3", "2024Q4", "2025Q1", "2025Q2"]

/-- Embedding of `dept_data` (line 86): group the quarter's records by
`Dept.` and sum `Qty`. -/
def dept_data (rs : List Rec) (q : String) : List (String × Int) :=
  groupSum ((rs.filter (inQuarter q)).map (fun r => (r.dept, r.qty)))

theorem sum_map_add {α : Type} (l : List α) (f g : α → Int) :
    (l.map (fun x => f x + g x)).sum = (l.map f).sum + (l.map g).sum := by
  induction l with
  | nil => simp
  | cons x xs ih => simp [ih]; ring

theorem sum_ite_single {α : Type} [DecidableEq α] (ks : List α) (hks : ks.Nodup)
    (a : α) (q : Int) :
    (ks.map (fun k => if a = k then q else 0)).sum = if a ∈ ks then q else 0 := by
  induction ks with
  | nil => simp
  | cons k ks ih =>
    rw [List.nodup_cons] at hks
    by_cases h : a = k
    · subst h
      have ha : a ∉ ks := hks.1
      have hz : (ks.map (fun k => if a = k then q else 0)).sum = 0 := by
        rw [ih hks.2]
        simp [ha]
      simp [hz]
    · simp [h, Ne.symm h, ih hks.2]

theorem sum_map_swap {α β : Type} (ks : List α) (l : List β) (f : β → α → Int) :
    (ks.map (fun k => (l.map (fun p => f p k)).sum)).sum
      = (l.map (fun p => (ks.map (fun k => f p k)).sum)).sum := by
  induction ks with
  | nil => simp
  | cons k ks ih =>
    rw [List.map_cons, List.sum_cons, ih, ← sum_map_add]
    simp

/-- Grouping never drops or double-counts quantity: the grouped sums of any
keyed table add up to the table's total quantity. -/
theorem groupSum_total {α : Type} [DecidableEq α] (l : List (α × Int)) :
    ((groupSum l).map Prod.snd).sum = (l.map Prod.snd).sum := by
  unfold groupSum
  rw [List.map_map]
  have h1 : (Prod.snd ∘ fun k => (k, sumForKey l k)) = fun k => sumForKey l k := rfl
  rw [h1]
  unfold sumForKey
  rw [sum_map_swap ((l.map Prod.fst).dedup) l (fun p k => if p.1 = k then p.2 else 0)]
  apply congrArg
  apply List.map_congr_left
  intro p hp
  rw [sum_ite_single _ (List.nodup_dedup _) p.1 p.2]
  have hmem : p.1 ∈ (l.map Prod.fst).dedup :=
    List.mem_dedup.mpr (List.mem_map_of_mem Prod.fst hp)
  simp [hmem]

/-- Descending-count order used to model `value_counts()` (which returns
counts sorted largest first). -/
def cntGE (a b : Value × Nat) : Prop := b.2 ≤ a.2

instance : DecidableRel cntGE := fun a b => inferInstanceAs (Decidable (b.2 ≤ a.2))

instance : IsTotal (Value × Nat) cntGE := ⟨fun a b => Nat.le_total b.2 a.2⟩

instance : IsTrans (Value × Nat) cntGE := ⟨fun _ _ _ h1 h2 => Nat.le_trans h2 h1⟩

/-- Embedding of `Series.value_counts()` (line 74): the occurrence count of
each distinct value (a record count, not a quantity sum), largest first. -/
def value_counts (l : List Value) : List (Value × Nat) :=
  List.insertionSort cntGE (l.dedup.map (fun v => (v, l.count v)))

/-- Type column of the selected year's records (line 74). -/
def typesInYear (rs : List Rec) (y : Nat) : List Value :=
  (df_year rs y).map Rec.type

/-- Embedding of `top_types` (line 74):
`value_counts().nlargest(5).index.tolist()`. -/
def top_types (rs : List Rec) (y : Nat) : List Value :=
  ((value_counts (typesInYear rs y)).take 5).map Prod.fst

theorem value_counts_mem {l : List Value} {p : Value × Nat}
    (hp : p ∈ value_counts l) : p.1 ∈ l.dedup ∧ p.2 = l.count p.1 := by
  unfold value_counts at hp
  rw [List.mem_insertionSort] at hp
  obtain ⟨v, hv, rfl⟩ := List.mem_map.mp hp
  exact ⟨hv, rfl⟩

theorem value_counts_mem_of (l : List Value) {v : Value} (hv : v ∈ l.dedup) :
    (v, l.count v) ∈ value_counts l := by
  unfold value_counts
  rw [List.mem_insertionSort]
  exact List.mem_map_of_mem _ hv

theorem value_counts_take_drop (l : List Value) (n : Nat) :
    ∀ x ∈ (value_counts l).take n, ∀ z ∈ (value_counts l).drop n, z.2 ≤ x.2 := by
  have hs : List.Pairwise cntGE (value_counts l) :=
    List.sorted_insertionSort cntGE _
  have hsplit :
      List.Pairwise cntGE ((value_counts l).take n ++ (value_counts l).drop n) := by
    rw [List.take_append_drop]
    exact hs
  exact (List.pairwise_append.mp hsplit).2.2

/-- ASCII lowercase of one character. -/
def charLower (c : Char) : Char :=
  if 65 ≤ c.toNat ∧ c.toNat ≤ 90 then Char.ofNat (c.toNat + 32) else c

/-- Embedding of Python's `str.lower()`. -/
def strLower (s : String) : String := String.mk (s.data.map charLower)

/-- Embedding of the scratched-records comparison (line 140):
`df["Reason"].str.lower() == "scratched"` lowercases the record's reason
(only that side carries any case) and trims nothing. -/
def scratchMatch (r : Rec) : Bool := strLower (asStr r.reason) == "scratched"

/-- Embedding of the scratched-records row filter (line 140). -/
def df_scratch (rs : List Rec) (y : Nat) : List Rec :=
  rs.filter (fun r => scratchMatch r && inYear y r)

/-- Embedding of the production-issue comparison (line 146):
`df["Reason"] == "production issue"` compares the raw reason exactly,
with no lowercasing and no trimming. -/
def prodMatch (r : Rec) : Bool := asStr r.reason == "production issue"

/-- Embedding of the production-issue row filter (line 146). -/
def df_prod (rs : List Rec) (y : Nat) : List Rec :=
  rs.filter (fun r => prodMatch r && inYear y r)

/-- Month names as Python's `strftime("%B")` renders them (line 166). -/
def monthName (m : Nat) : String :=
  (["January", "February", "March", "April", "May", "June", "July",
    "August", "September", "October", "November", "December"]).getD (m - 1) ""

/-- Zero-padded two-digit strftime field. -/
def pad2 (n : Nat) : String := if n < 10 then "0" ++ toString n else toString n

/-- Embedding of `date.strftime("%Y-%m-%d")` (line 173). -/
def formatYMD (d : Date) : String :=
  toString d.year ++ "-" ++ pad2 d.month ++ "-" ++ pad2 d.day

/-- Raw form input of the New Entry tab (lines 154-163). `date` is `none`
when the required date is missing or unparseable; `qty` is the raw numeric
input before the widget applies its minimum. -/
structure FormInput where
  date : Option Date
  size : String
  thickness : String
  glass_type : String
  reason : String
  qty : Int
  vendor : String
  so : String
  dept : String
deriving DecidableEq, Repr

/-- Embedding of `st.number_input("Qty", step=1, min_value=1)` (line 160):
the widget refuses a value below its minimum, so no such value reaches the
submit handler. -/
def number_input (minVal v : Int) : Option Int :=
  if v < minVal then none else some v

/-- Embedding of `st.date_input("Date")` (line 154): a calendar date is
required, so a missing or unparseable date never reaches the submit
handler. -/
def date_input (d : Option Date) : Option Date := d

/-- Embedding of `new_row` (lines 171-184): the exact persisted column
order, with the numeric-looking fields emitted as text (`str(week)`,
`str(year)`, `str(qty)`). -/
def new_row (d : Date) (size thickness glass_type reason : String) (qty : Int)
    (vendor so dept : String) : List String :=
  [toString (isoWeek d), formatYMD d, monthName d.month, toString d.year,
   size, thickness, glass_type, reason, toString qty, vendor, so, dept]

/-- Entry validation and shaping: the widget-validated date and quantity
feed the submit handler, which derives the auto fields (lines 166-168) and
builds `new_row`; invalid input yields no row. -/
def shapeEntry (f : FormInput) : Option (List String) :=
  match date_input f.date, number_input 1 f.qty with
  | some d, some q =>
    some (new_row d f.size f.thickness f.glass_type f.reason q f.vendor f.so f.dept)
  | _, _ => none

/-- Column headers of the dashboard table after preprocessing: the sheet's
persisted columns (the order `new_row` appends) plus the derived `Quarter`
column the preprocess step adds (line 39). -/
def columns : List String :=
  ["Week#", "Date", "Month", "Year", "Size", "Thickness", "Type", "Reason",
   "Qty", "Vendor", "SO", "Dept.", "Quarter"]

/-- Nullable integer cell (`Week#` and `Year` after preprocessing). -/
def optCell (o : Option Nat) : Value :=
  match o with
  | some n => .num (Int.ofNat n)
  | none => .NaT

/-- Cells of one sheet row, in `columns` order (what `df.to_excel` writes
for one record, line 98). -/
def recRow (r : Rec) : List Value :=
  [optCell r.week, r.date, .str r.month, optCell r.year, .str r.size,
   .str r.thickness, r.type, r.reason, .num r.qty, .str r.vendor,
   .str r.so, .str r.dept, .str r.quarter]

/-- Embedding of `col_map` (line 116): column name to column index. -/
def col_map (c : String) : Nat := columns.findIdx (fun x => x == c)

/-- Cell of a record at a column index. -/
def cellAt (r : Rec) (i : Nat) : Value := (recRow r).getD i (.str "")

/-- Chart series: a name, a category cell range and a value cell range. -/
structure Series where
  name : String
  categories : List Value
  values : List Value
deriving DecidableEq, Repr

/-- One embedded chart object. -/
structure Chart where
  chartType : String
  series : Series
deriving DecidableEq, Repr

/-- The exported workbook: the AllData sheet and the Charts sheet's chart
objects. -/
structure Workbook where
  allData : List (List Value)
  charts : List Chart
deriving DecidableEq, Repr

/-- Embedding of `create_chart` (lines 104-113): the chart's single series
is bound to the AllData sheet's rows 1..len(df) - every data row, no
grouping - of the given category and value columns. -/
def create_chart (rs : List Rec) (ctype title : String) (catCol valCol : Nat) : Chart :=
  { chartType := ctype,
    series := { name := title,
                categories := rs.map (fun r => cellAt r catCol),
                values := rs.map (fun r => cellAt r valCol) } }

/-- Embedding of the Excel export block (lines 94-123): the AllData sheet
(header row, then one row per record) and the four charts, each bound to
raw AllData columns. -/
def exportReport (rs : List Rec) : Workbook :=
  { allData := columns.map Value.str :: rs.map recRow,
    charts :=
      [create_chart rs "column" "Weekly Rejections" (col_map "Week#") (col_map "Qty"),
       create_chart rs "bar" "Rejections by Reason" (col_map "Reason") (col_map "Qty"),
       create_chart rs "bar" "Rejections by Glass Type" (col_map "Type") (col_map "Qty"),
       create_chart rs "pie" "Rejections by Department" (col_map "Dept.") (col_map "Qty")] }

/-- Embedding of `type_data` (lines 75-76): group by `Type` within the
year, restricted to the top-5 types, and sum `Qty`. -/
def type_data (rs : List Rec) (y : Nat) : List (Value × Int) :=
  groupSum (((df_year rs y).filter (fun r => (top_types rs y).contains r.type)).map
    (fun r => (r.type, r.qty)))

/-- Two records of week 1 of 2024 with quantities 2 and 3, otherwise
identical, used to evaluate the export block on concrete data. -/
def recA : Rec :=
  { blankRec with
    date := .str "2024-01-01", reason := .str "Broken",
    type := .str "Clear", dept := "Patio Doors", qty := 2 }

/-- Second record of the concrete export input. -/
def recB : Rec := { recA with qty := 3 }

/-- The concrete normalized export input. -/
def chartInput : List Rec := preprocess [recA, recB]

/-- A record with a type label, dated inside 2024, for top-N examples. -/
def typeRec (t : String) : Rec :=
  { blankRec with date := .str "2024-03-01", type := .str t, qty := 1 }

/-- The record set with types [A,A,A,B,B,C,D,E,F] in year 2024. -/
def typesExample : List Rec :=
  preprocess (["A", "A", "A", "B", "B", "C", "D", "E", "F"].map typeRec)

/-- A record whose Date cell does not parse. -/
def badDateRec : Rec := { blankRec with date := .str "hello", qty := 4 }

/-- A fully-populated valid form input. -/
def exForm : FormInput :=
  { date := some ⟨2024, 1, 15⟩, size := "24x36", thickness := "5",
    glass_type := "Clear", reason := "Scratched", qty := 3,
    vendor := "Cardinal", so := "SO123", dept := "Patio Doors" }

/-- C1: at a concrete two-record input, the exported charts' series data is
the raw per-record Qty column of the AllData sheet, not the grouped
Aggregator output: each of the four aggregates collapses the two rows into
one summed row, while every chart series carries both raw rows, so the
chart data differs from the corresponding aggregate. -/
theorem export_chart_series_ne_aggregates :
    ((exportReport chartInput).charts.map (fun c => c.series.values))
      = [[Value.num 2, Value.num 3], [Value.num 2, Value.num 3],
         [Value.num 2, Value.num 3], [Value.num 2, Value.num 3]]
    ∧ weekly chartInput 2024 = [(some 1, 5)]
    ∧ reason_data chartInput 2024 = [(Value.str "Broken", 5)]
    ∧ type_data chartInput 2024 = [(Value.str "Clear", 5)]
    ∧ dept_data chartInput "2024Q1" = [("Patio Doors", 5)]
    ∧ [Value.num 2, Value.num 3]
        ≠ (weekly chartInput 2024).map (fun p => Value.num p.2) := by
  decide

/-- C2 counterexample: reason filtering is not whitespace-normalized. With
the comparison of line 140, the reason "Scratched" matches the scratched
group but " scratched " does not, so the three spellings of the claim do
not all select the same group. -/
theorem reason_filter_counterexample :
    scratchMatch { blankRec with reason := Value.str "Scratched" } = true
    ∧ scratchMatch { blankRec with reason := Value.str "SCRATCHED" } = true
    ∧ scratchMatch { blankRec with reason := Value.str " scratched " } = false := by
  decide

/-- C2 amended: the scratched filter lowercases the record's reason and
compares it to the lowercase literal "scratched" with no trimming, so
"Scratched" and "SCRATCHED" select the same group while " scratched " does
not; the production-issue filter compares the raw reason exactly, so even
"Production Issue" fails to match. -/
theorem reason_filter_behavior :
    (∀ s : String,
      scratchMatch { blankRec with reason := Value.str s }
        = (strLower s == "scratched"))
    ∧ scratchMatch { blankRec with reason := Value.str "Scratched" } = true
    ∧ scratchMatch { blankRec with reason := Value.str "SCRATCHED" } = true
    ∧ scratchMatch { blankRec with reason := Value.str " scratched " } = false
    ∧ prodMatch { blankRec with reason := Value.str "production issue" } = true
    ∧ prodMatch { blankRec with reason := Value.str "Production Issue" } = false := by
  refine ⟨fun s => rfl, ?_⟩
  decide

/-- C3: a record whose Date cell does not parse is kept (preprocess maps
every row, dropping none), its date becomes the missing marker NaT, its
derived Year and Week# are null, its Quarter is the missing-Period marker
"NaT" (the stringified column's null rendering), it fails every year
filter and every selectable quarter filter - so it enters no temporal
aggregate - and it still occupies its row of the table. -/
theorem unparseable_date_handling (r : Rec) (h : parseCell r.date = none) :
    (normalizeRec r).date = Value.NaT
    ∧ (normalizeRec r).year = none
    ∧ (normalizeRec r).week = none
    ∧ (normalizeRec r).quarter = "NaT"
    ∧ (∀ y : Nat, inYear y (normalizeRec r) = false)
    ∧ (∀ q, q ∈ valid_quarters → inQuarter q (normalizeRec r) = false)
    ∧ (∀ rs : List Rec, (preprocess rs).length = rs.length
        ∧ (r ∈ rs → normalizeRec r ∈ preprocess rs)) := by
  have hn : normalizeRec r
      = { r with date := .NaT, year := none, quarter := "NaT", week := none,
                 reason := .str (asStr r.reason), type := .str (asStr r.type) } := by
    unfold normalizeRec
    rw [h]
  refine ⟨?_, ?_, ?_, ?_, ?_, ?_, ?_⟩
  · rw [hn]
  · rw [hn]
  · rw [hn]
  · rw [hn]
  · intro y
    rw [hn]
    rfl
  · intro q hq
    rw [hn]
    simp only [valid_quarters, List.mem_cons, List.not_mem_nil, or_false] at hq
    rcases hq with rfl | rfl | rfl | rfl | rfl | rfl <;> rfl
  · intro rs
    refine ⟨by simp [preprocess], fun hr => List.mem_map_of_mem normalizeRec hr⟩

/-- C3 witness: the guarantees of unparseable-date handling instantiated at
a record whose Date cell is the text "hello". -/
theorem unparseable_date_handling_witness :
    parseCell badDateRec.date = none
    ∧ ((normalizeRec badDateRec).date = Value.NaT
      ∧ (normalizeRec badDateRec).year = none
      ∧ (normalizeRec badDateRec).week = none
      ∧ (normalizeRec badDateRec).quarter = "NaT"
      ∧ (∀ y : Nat, inYear y (normalizeRec badDateRec) = false)
      ∧ (∀ q, q ∈ valid_quarters → inQuarter q (normalizeRec badDateRec) = false)
      ∧ (∀ rs : List Rec, (preprocess rs).length = rs.length
          ∧ (badDateRec ∈ rs → normalizeRec badDateRec ∈ preprocess rs))) :=
  ⟨by decide, unparseable_date_handling badDateRec (by decide)⟩

/-- C4: the grouped reason sums of a year add up to the total Qty of that
year's filtered records - grouping drops no quantity and counts none
twice. After preprocessing every reason cell is text (astype(str)), so no
record of the filtered subset has a null reason. -/
theorem reason_aggregate_total (rs : List Rec) (y : Nat) :
    ((reason_data rs y).map Prod.snd).sum = ((df_year rs y).map Rec.qty).sum := by
  unfold reason_data
  rw [groupSum_total, List.map_map]
  rfl

/-- C5: top_types counts occurrences by record count, returns at most 5
values (exactly the distinct count when fewer than 5 exist), and every
returned value has an occurrence count at least that of every distinct
value left out. -/
theorem top_types_spec (rs : List Rec) (y : Nat) :
    (top_types rs y).length = min 5 (typesInYear rs y).dedup.length
    ∧ ∀ v, v ∈ top_types rs y → ∀ w, w ∈ (typesInYear rs y).dedup →
        w ∉ top_types rs y →
        (typesInYear rs y).count w ≤ (typesInYear rs y).count v := by
  constructor
  · unfold top_types value_counts
    rw [List.length_map, List.length_take,
        (List.perm_insertionSort cntGE _).length_eq, List.length_map]
  · intro v hv w hw hnw
    unfold top_types at hv hnw
    obtain ⟨p, hpTake, hpv⟩ := List.mem_map.mp hv
    have hps : p ∈ value_counts (typesInYear rs y) := List.take_subset _ _ hpTake
    have hpair := value_counts_mem hps
    have hwvc : (w, (typesInYear rs y).count w) ∈ value_counts (typesInYear rs y) :=
      value_counts_mem_of _ hw
    have hwdrop : (w, (typesInYear rs y).count w)
        ∈ (value_counts (typesInYear rs y)).drop 5 := by
      have hsplit : (w, (typesInYear rs y).count w)
          ∈ (value_counts (typesInYear rs y)).take 5
            ++ (value_counts (typesInYear rs y)).drop 5 := by
        rw [List.take_append_drop]
        exact hwvc
      rcases List.mem_append.mp hsplit with hIn | hIn
      · exact absurd (List.mem_map_of_mem Prod.fst hIn) hnw
      · exact hIn
    have hle := value_counts_take_drop (typesInYear rs y) 5 p hpTake _ hwdrop
    rw [hpair.2, hpv] at hle
    exact hle

/-- C5 witness: the top-type guarantees instantiated on the record set with
types [A,A,A,B,B,C,D,E,F] in 2024: the result has length min 5 6 = 5, and
the excluded value F occurs no more often than the selected value A. -/
theorem top_types_spec_witness :
    (top_types typesExample 2024).length
      = min 5 (typesInYear typesExample 2024).dedup.length
    ∧ (typesInYear typesExample 2024).count (Value.str "F")
        ≤ (typesInYear typesExample 2024).count (Value.str "A") :=
  ⟨(top_types_spec typesExample 2024).1,
   (top_types_spec typesExample 2024).2 (Value.str "A") (by decide)
     (Value.str "F") (by decide) (by decide)⟩

/-- C6: for a valid form input (a date present and a quantity the widget
accepts), the shaped row is exactly the column order
[week, date, month, year, size, thickness, glassType, reason, qty, vendor,
so, dept], with week, year and qty rendered as text. -/
theorem new_row_schema (f : FormInput) (d : Date) (hd : f.date = some d)
    (hq : 1 ≤ f.qty) :
    shapeEntry f = some
      [toString (isoWeek d), formatYMD d, monthName d.month, toString d.year,
       f.size, f.thickness, f.glass_type, f.reason, toString f.qty,
       f.vendor, f.so, f.dept] := by
  unfold shapeEntry date_input number_input
  rw [hd]
  have hlt : ¬f.qty < 1 := not_lt.mpr hq
  simp [hlt, new_row]

/-- C6 witness: the shaped row for a concrete entry dated 2024-01-15
(ISO week 3) with quantity 3. -/
theorem new_row_schema_witness :
    exForm.date = some ⟨2024, 1, 15⟩ ∧ 1 ≤ exForm.qty
    ∧ shapeEntry exForm = some
        ["3", "2024-01-15", "January", "2024", "24x36", "5", "Clear",
         "Scratched", "3", "Cardinal", "SO123", "Patio Doors"] :=
  ⟨rfl, by decide, by
    rw [new_row_schema exForm ⟨2024, 1, 15⟩ rfl (by decide)]
    decide⟩

/-- C7: entry validation refuses any quantity below 1 (so qty = 0) and a
missing date before any row is shaped, and accepts qty = 1. -/
theorem entry_validation :
    (∀ f : FormInput, f.qty < 1 → shapeEntry f = none)
    ∧ (∀ f : FormInput, f.date = none → shapeEntry f = none)
    ∧ (∀ f : FormInput, ∀ d : Date, f.date = some d → f.qty = 1 →
        shapeEntry f ≠ none) := by
  refine ⟨?_, ?_, ?_⟩
  · intro f h
    unfold shapeEntry number_input date_input
    rw [if_pos h]
    cases f.date <;> rfl
  · intro f h
    unfold shapeEntry date_input number_input
    rw [h]
  · intro f d hd hq
    unfold shapeEntry date_input number_input
    rw [hd, hq]
    simp

/-- C7 witness: a concrete entry with qty 0 is refused, one with a missing
date is refused, and one with qty 1 is accepted. -/
theorem entry_validation_witness :
    shapeEntry { exForm with qty := 0 } = none
    ∧ shapeEntry { exForm with date := none } = none
    ∧ shapeEntry { exForm with qty := 1 } ≠ none :=
  ⟨entry_validation.1 _ (by decide),
   entry_validation.2.1 _ rfl,
   entry_validation.2.2 _ ⟨2024, 1, 15⟩ rfl rfl⟩

/-- C8: preprocessing is idempotent - normalizing an already-normalized
record set reproduces every field, derived fields included, because
re-coercing a parsed date, a missing marker or an already-text cell
changes nothing. -/
theorem preprocess_idempotent (rs : List Rec) :
    preprocess (preprocess rs) = preprocess rs := by
  unfold preprocess
  rw [List.map_map]
  apply List.map_congr_left
  intro r _
  exact normalizeRec_idem r

/-- C9: exporting the empty record set yields a well-formed workbook whose
AllData sheet holds only the header row and whose four charts carry no
series data. -/
theorem export_empty_valid :
    (exportReport []).allData = [columns.map Value.str]
    ∧ (exportReport []).charts.map (fun c => c.series.categories)
        = [[], [], [], []]
    ∧ (exportReport []).charts.map (fun c => c.series.values)
        = [[], [], [], []] :=
  ⟨rfl, rfl, rfl⟩

/-- Week derivation of the Schema Normalizer,
`df["Date"].dt.isocalendar().week` (line 40). -/
def weekNumNorm (d : Date) : Nat := isoWeek d

/-- Week derivation of the Entry Validator/Shaper,
`date.isocalendar().week` (line 168). -/
def weekNumEntry (d : Date) : Nat := isoWeek d

/-- C10: for every calendar date the entry form's week number equals the
week number the normalizer derives for a loaded record with the same date:
both sites invoke the same ISO-8601 week rule, the normalizer stores it in
the Week# column, and the shaped row emits it as its first field. -/
theorem week_rule_shared (d : Date) :
    weekNumEntry d = weekNumNorm d
    ∧ (normalizeRec { blankRec with date := Value.date d }).week
        = some (weekNumEntry d)
    ∧ (new_row d "" "" "" "" 1 "" "" "").headD "" = toString (weekNumNorm d) :=
  ⟨rfl, rfl, rfl⟩
